import Mathlib

/-!
Shallow embedding of `src/dbentity.js` (mysqlutils): the metadata-driven
SQL construction engine of `DbEntity`.  JavaScript values that flow through
the builders are modelled by `JsValue`; template/save objects are modelled
as association lists in insertion order (JS string-keyed objects preserve
insertion order, which the code relies on for clause ordering).
-/

namespace Mysqlutils

/-- Model of the JavaScript values handled by dbentity.js: strings, numbers
(the claims only involve integral numbers), `null` and `undefined`. -/
inductive JsValue where
  | str (s : String)
  | num (n : Int)
  | null
  | jsUndefined
deriving DecidableEq, Repr

/-- lodash `_.isNil`: true exactly on `null` and `undefined`. -/
def JsValue.isNil : JsValue → Bool
  | .null => true
  | .jsUndefined => true
  | _ => false

/-- Whether the first character list is an initial segment of the second. -/
def charsPrefix : List Char → List Char → Bool
  | [], _ => true
  | _ :: _, [] => false
  | a :: as, b :: bs => a == b && charsPrefix as bs

/-- lodash `_.startsWith(s, target)`: does `s` start with `target`? -/
def strStartsWith (s target : String) : Bool :=
  charsPrefix target.toList s.toList

/-- JS `s.substr(1)`: the string without its first character. -/
def strDrop1 (s : String) : String := ⟨s.toList.drop 1⟩

/-- JS property read `obj[k]` on an object modelled as an association list:
a missing key yields `undefined`. -/
def jsGet (obj : List (String × JsValue)) (k : String) : JsValue :=
  match obj.find? (fun kv => kv.1 == k) with
  | some kv => kv.2
  | none => .jsUndefined

/-- One column-metadata record, in the shape built by
`DbEntity.prototype.fetchMetadata` (dbentity.js lines 109-119). -/
structure Column where
  column : String
  sql_type : String
  pk : Bool
  nullable : Bool
  defaultValue : JsValue := .null
  autoincrement : Bool := false
  is_updated_timestamp : Bool := false
  is_created_timestamp : Bool := false
  is_updated_version : Bool := false
deriving DecidableEq, Repr

/-- The special-column configuration held in `self.options`
(dbentity.js lines 51-56); `none` models an unset (undefined) setting. -/
structure EntityOptions where
  created_timestamp_column : Option String := none
  updated_timestamp_column : Option String := none
  version_number_column : Option String := none
deriving DecidableEq, Repr

/-- The default option settings documented on the constructor
(dbentity.js lines 51-56). -/
def defaultOptions : EntityOptions :=
  { created_timestamp_column := some "created"
    updated_timestamp_column := some "updated"
    version_number_column := some "version" }

/-- One raw row of `SHOW COLUMNS FROM <table>` as consumed by
`fetchMetadata` (dbentity.js lines 107-116). -/
structure RawColumn where
  fieldName : String
  typeName : String
  keyFlag : String
  nullFlag : String
  defaultValue : JsValue := .null
  extraFlag : String := ""
deriving DecidableEq, Repr

/-- Translation of one raw `SHOW COLUMNS` row into the internal metadata
record (dbentity.js lines 109-119). -/
def parseColumn (options : EntityOptions) (item : RawColumn) : Column :=
  { column := item.fieldName
    sql_type := item.typeName
    pk := item.keyFlag == "PRI"
    nullable := item.nullFlag == "YES"
    defaultValue := item.defaultValue
    autoincrement := item.extraFlag == "auto_increment"
    is_updated_timestamp := options.updated_timestamp_column == some item.fieldName
    is_created_timestamp := options.created_timestamp_column == some item.fieldName
    is_updated_version := options.version_number_column == some item.fieldName }

/-! ### Model of the `moment` dependency

`_transformToSafeValue` calls `moment(input).format('YYYY-MM-DD HH:mm:ss')`.
The model fixes the process timezone to UTC and covers the ISO-8601 subset
`YYYY-MM-DD`, optionally followed by `THH:mm:ss` and an optional trailing
`Z`; any other string is unparsable.  moment never throws on unparsable
input: `format` then returns the literal string `"Invalid date"`.  A
numeric input is interpreted as milliseconds since the Unix epoch. -/

/-- Decimal digit value of a character, if it is a digit. -/
def digitVal (c : Char) : Option Nat :=
  if c.isDigit then some (c.toNat - 48) else none

/-- Two-digit decimal number from two characters. -/
def parse2 (a b : Char) : Option Nat := do
  let x ← digitVal a
  let y ← digitVal b
  pure (10 * x + y)

/-- Four-digit decimal number from four characters. -/
def parse4 (a b c d : Char) : Option Nat := do
  let x ← parse2 a b
  let y ← parse2 c d
  pure (100 * x + y)

/-- Gregorian leap-year test. -/
def isLeap (y : Nat) : Bool :=
  (y % 4 == 0 && y % 100 != 0) || (y % 400 == 0)

/-- Number of days in a month. -/
def daysInMonth (y m : Nat) : Nat :=
  if m == 2 then (if isLeap y then 29 else 28)
  else if m == 4 || m == 6 || m == 9 || m == 11 then 30
  else 31

/-- Range-check a parsed calendar date-time, as moment's ISO parser does. -/
def mkDateTime (y mo d h mi s : Nat) :
    Option (Nat × Nat × Nat × Nat × Nat × Nat) :=
  if 1 ≤ mo && mo ≤ 12 && 1 ≤ d && d ≤ daysInMonth y mo
      && h ≤ 23 && mi ≤ 59 && s ≤ 59 then
    some (y, mo, d, h, mi, s)
  else
    none

/-- Parse the modelled ISO-8601 subset from a character list. -/
def parseIsoChars : List Char → Option (Nat × Nat × Nat × Nat × Nat × Nat)
  | [a, b, c, d, '-', e, f, '-', g, h] => do
    let y ← parse4 a b c d
    let mo ← parse2 e f
    let dd ← parse2 g h
    mkDateTime y mo dd 0 0 0
  | [a, b, c, d, '-', e, f, '-', g, h, 'T', i, j, ':', k, l, ':', m, n] => do
    let y ← parse4 a b c d
    let mo ← parse2 e f
    let dd ← parse2 g h
    let hh ← parse2 i j
    let mi ← parse2 k l
    let ss ← parse2 m n
    mkDateTime y mo dd hh mi ss
  | [a, b, c, d, '-', e, f, '-', g, h, 'T', i, j, ':', k, l, ':', m, n, 'Z'] => do
    let y ← parse4 a b c d
    let mo ← parse2 e f
    let dd ← parse2 g h
    let hh ← parse2 i j
    let mi ← parse2 k l
    let ss ← parse2 m n
    mkDateTime y mo dd hh mi ss
  | _ => none

/-- Left-pad a natural number to two decimal digits. -/
def pad2 (n : Nat) : String :=
  if n < 10 then "0" ++ toString n else toString n

/-- Left-pad a natural number to four decimal digits. -/
def pad4 (n : Nat) : String :=
  if n < 10 then "000" ++ toString n
  else if n < 100 then "00" ++ toString n
  else if n < 1000 then "0" ++ toString n
  else toString n

/-- Render a year, which is an integer (proleptic Gregorian). -/
def pad4i (y : Int) : String :=
  if 0 ≤ y then pad4 y.toNat else "-" ++ toString (-y)

/-- Civil date from a count of days since 1970-01-01 (proleptic Gregorian);
divisions are Euclidean, so they agree with floor division here. -/
def civilFromDays (z0 : Int) : Int × Nat × Nat :=
  let z := z0 + 719468
  let era := Int.ediv z 146097
  let doe := (z - era * 146097).toNat
  let yoe := (doe - doe / 1460 + doe / 36524 - doe / 146096) / 365
  let y : Int := (yoe : Int) + era * 400
  let doy := doe - (365 * yoe + yoe / 4 - yoe / 100)
  let mp := (5 * doy + 2) / 153
  let d := doy - (153 * mp + 2) / 5 + 1
  let m := if mp < 10 then mp + 3 else mp - 9
  (if m ≤ 2 then y + 1 else y, m, d)

/-- Format milliseconds since the Unix epoch as `YYYY-MM-DD HH:mm:ss`
in UTC. -/
def formatEpochMillis (ms : Int) : String :=
  let totalSec := Int.ediv ms 1000
  let days := Int.ediv totalSec 86400
  let sod := (Int.emod totalSec 86400).toNat
  let c := civilFromDays days
  pad4i c.1 ++ "-" ++ pad2 c.2.1 ++ "-" ++ pad2 c.2.2 ++ " "
    ++ pad2 (sod / 3600) ++ ":" ++ pad2 (sod % 3600 / 60) ++ ":" ++ pad2 (sod % 60)

/-- Model of `moment(input).format('YYYY-MM-DD HH:mm:ss')` under a UTC
process timezone.  The coercion helper only reaches this call with a
non-nil input, so the `null`/`undefined` cases are unreachable from the
modelled code paths. -/
def momentFormat : JsValue → String
  | .str s =>
    match parseIsoChars s.toList with
    | some (y, mo, d, h, mi, sec) =>
      pad4 y ++ "-" ++ pad2 mo ++ "-" ++ pad2 d ++ " "
        ++ pad2 h ++ ":" ++ pad2 mi ++ ":" ++ pad2 sec
    | none => "Invalid date"
  | .num n => formatEpochMillis n
  | _ => "Invalid date"

/-- Local validation failure (the spec's `ValidationError` taxon): the only
error `_transformToSafeValue` can raise (dbentity.js line 719). -/
inductive CoerceError where
  | validationError (msg : String)
deriving DecidableEq, Repr

/-- Translation of the helper `_transformToSafeValue(input, column)`
(dbentity.js lines 709-730). -/
def _transformToSafeValue (input : JsValue) (column : Column) :
    Except CoerceError JsValue :=
  let datatype := column.sql_type
  let nullable := column.nullable
  if input == .str "" then
    if datatype == "datetime" || datatype == "timestamp"
        || strStartsWith datatype "int" || strStartsWith datatype "num"
        || strStartsWith datatype "dec" then
      if nullable then
        .ok .null
      else
        .error (.validationError (column.column ++ " is not permitted to be empty."))
    else
      .ok input
  else if !input.isNil then
    if datatype == "datetime" || datatype == "timestamp" then
      .ok (.str (momentFormat input))
    else
      .ok input
  else
    .ok input

/-- The query options object accepted by the select operations
(dbentity.js lines 172-178); `none` models an absent (nil) field, and a
wholly absent options object is modelled as `none : Option QueryOpts`. -/
structure QueryOpts where
  orderBy : Option (List String) := none
  limit : Option Int := none
  offset : Option Int := none
  booleanMode : Option String := none
deriving DecidableEq, Repr

/-- One caller-supplied orderBy token rendered as an ORDER BY item: a
leading `-` is stripped and maps to DESC, a leading `+` is stripped and
maps to ASC, otherwise ASC (dbentity.js lines 670-678). -/
def orderToken (colname : String) : String :=
  if strStartsWith colname "-" then strDrop1 colname ++ " DESC"
  else if strStartsWith colname "+" then strDrop1 colname ++ " ASC"
  else colname ++ " ASC"

/-- Translation of `DbEntity.prototype._appendOrderByAndLimit(sql, opts)`
(dbentity.js lines 660-704), preserving its accumulator structure.  Note
two faithful quirks of the source: in the primary-key branch the comma
separators are accumulated into the `orderBy` variable while the column
items are appended to `sql` directly, and the whole limit/offset block is
guarded by the options object being non-nil. -/
def _appendOrderByAndLimit (metadata : List Column) (sql : String)
    (opts : Option QueryOpts) : String :=
  let ob : String × String :=
    match opts with
    | none => ("", "")
    | some o =>
      let orderBy :=
        match o.orderBy with
        | some toks =>
          if toks.length > 0 then
            " ORDER BY " ++ String.intercalate ", " (toks.map orderToken)
          else ""
        | none => ""
      let limit :=
        match o.limit with
        | some n => " LIMIT " ++ toString n
        | none => " LIMIT 1000"
      let limit :=
        match o.offset with
        | some n => limit ++ " OFFSET " ++ toString n
        | none => limit
      (orderBy, limit)
  let orderBy := ob.1
  let limit := ob.2
  if orderBy == "" then
    let pks := metadata.filter (fun c => c.pk)
    let sql := sql ++ " ORDER BY "
    let sql := sql ++ String.join (pks.map (fun c => c.column ++ " ASC"))
    let orderBy := orderBy ++ String.join (List.replicate (pks.length - 1) ", ")
    sql ++ orderBy ++ limit
  else
    sql ++ orderBy ++ limit

/-- WHERE fragment and parameter list built from a template object by the
shared loop of `find` (dbentity.js lines 239-245): one `col=?` clause per
entry in insertion order, joined by the boolean connector. -/
def whereFromTemplate (bool : String) (query : List (String × JsValue)) :
    String × List JsValue :=
  query.foldl
    (fun acc kv =>
      let w := if acc.1 != "" then acc.1 ++ bool else acc.1
      (w ++ kv.1 ++ "=?", acc.2 ++ [kv.2]))
    ("", [])

/-- SQL text and parameter list that `DbEntity.prototype.find` hands to
`callDb` (dbentity.js lines 225-252). -/
def buildFind (table : String) (metadata : List Column)
    (query : List (String × JsValue)) (opts : Option QueryOpts) :
    String × List JsValue :=
  let bool :=
    match opts with
    | some o =>
      match o.booleanMode with
      | some m => " " ++ m ++ " "
      | none => " AND "
    | none => " AND "
  let sql := "SELECT * FROM " ++ table ++ " "
  let sql := sql ++ " WHERE "
  let wp := whereFromTemplate bool query
  let sql := sql ++ wp.1
  (_appendOrderByAndLimit metadata sql opts, wp.2)

/-- SQL text that `DbEntity.prototype.all` hands to `callDb`
(dbentity.js lines 181-194); its parameter list is always empty. -/
def buildAll (table : String) (metadata : List Column)
    (opts : Option QueryOpts) : String :=
  _appendOrderByAndLimit metadata ("SELECT * FROM " ++ table ++ " ") opts

/-- SQL text and parameter list that `DbEntity.prototype.selectWhere`
hands to `callDb` (dbentity.js lines 313-331).  The source builds `sql`
from the verbatim `where` argument and then executes
`self.callDb(sql, [])`: the `parms` argument is only echoed to the debug
log and never bound. -/
def selectWhereDbCall (table : String) (metadata : List Column)
    (whereClause : String) (parms : List JsValue) (opts : Option QueryOpts) :
    String × List JsValue :=
  let sql := "SELECT * FROM " ++ table ++ " "
  let sql := sql ++ " WHERE "
  let sql := sql ++ whereClause
  (_appendOrderByAndLimit metadata sql opts, [])

/-- The SET-clause loop of `DbEntity.prototype.update` (dbentity.js lines
429-456): iterate the entries present on `save` in insertion order; skip
keys that are not non-primary-key columns and skip the created-timestamp
column; emit `col=col+1` for the version column and
`col=CURRENT_TIMESTAMP` for the updated-timestamp column (no parameter in
either case, and in the version branch the source writes the option name,
which the guard makes equal to `col.column`); otherwise emit `col=?` and
push the coerced value, with a nil result normalized to `null`. -/
def updateSets (options : EntityOptions) (not_pks : List Column) :
    List (String × JsValue) → String → List JsValue →
    Except CoerceError (String × List JsValue)
  | [], sets, parms => .ok (sets, parms)
  | (k, v) :: rest, sets, parms =>
    match not_pks.find? (fun c => c.column == k) with
    | none => updateSets options not_pks rest sets parms
    | some col =>
      if options.created_timestamp_column == some col.column then
        updateSets options not_pks rest sets parms
      else
        let sets := if sets != "" then sets ++ ", " else sets
        if options.version_number_column == some col.column then
          updateSets options not_pks rest
            (sets ++ col.column ++ "=" ++ col.column ++ "+1") parms
        else if options.updated_timestamp_column == some col.column then
          updateSets options not_pks rest
            (sets ++ col.column ++ "=CURRENT_TIMESTAMP") parms
        else
          match _transformToSafeValue v col with
          | .error e => .error e
          | .ok pv =>
            let pv := if pv.isNil then JsValue.null else pv
            updateSets options not_pks rest (sets ++ col.column ++ "=?")
              (parms ++ [pv])

/-- The primary-key WHERE fragment shared by `update` and `deleteOne`
(dbentity.js lines 460-468 and 505-513): one `col=?` clause per
primary-key column in metadata order, joined by AND, with the value read
off the save object (missing keys read as `undefined`). -/
def pkWhere (metadata : List Column) (save : List (String × JsValue)) :
    String × List JsValue :=
  (metadata.filter (fun c => c.pk)).foldl
    (fun acc col =>
      let w := if acc.1 != "" then acc.1 ++ " AND " else acc.1
      (w ++ col.column ++ "=?", acc.2 ++ [jsGet save col.column]))
    ("", [])

/-- SQL text and parameter list that `DbEntity.prototype.update` hands to
`callDb` (dbentity.js lines 418-474), or the validation error thrown while
coercing a set value. -/
def buildUpdate (table : String) (options : EntityOptions)
    (metadata : List Column) (save : List (String × JsValue)) :
    Except CoerceError (String × List JsValue) :=
  let not_pks := metadata.filter (fun c => !c.pk)
  match updateSets options not_pks save "" [] with
  | .error e => .error e
  | .ok sp =>
    let wp := pkWhere metadata save
    .ok ("UPDATE " ++ table ++ " SET " ++ sp.1 ++ " WHERE " ++ wp.1,
      sp.2 ++ wp.2)

/-- A JavaScript runtime error raised by the modelled code itself (as
opposed to a validation failure or a database error). -/
inductive JsRunError where
  | referenceError (name : String)
deriving DecidableEq, Repr

/-- Translation of the query-construction part of
`DbEntity.prototype.deleteMatching` (dbentity.js lines 569-591): its first
statement after the local declarations is `sql += ' WHERE '`, which reads
the undeclared variable `sql`, so for every criteria object a
ReferenceError is thrown before any SQL is assembled or executed. -/
def buildDeleteMatching (criteria : List (String × JsValue)) :
    Except JsRunError (String × List JsValue) :=
  .error (.referenceError "sql is not defined")

/-- What `find` hands to `callDb`, as an optional call: `find` performs no
local validation of the template, so a call is always issued. -/
def findDbCall (table : String) (metadata : List Column)
    (query : List (String × JsValue)) (opts : Option QueryOpts) :
    Option (String × List JsValue) :=
  some (buildFind table metadata query opts)

/-- What `update` hands to `callDb`, as an optional call: `none` exactly
when value coercion throws before execution. -/
def updateDbCall (table : String) (options : EntityOptions)
    (metadata : List Column) (save : List (String × JsValue)) :
    Option (String × List JsValue) :=
  (buildUpdate table options metadata save).toOption

/-- What `deleteMatching` hands to `callDb`: nothing, ever, because its
builder throws a ReferenceError first. -/
def deleteMatchingDbCall (criteria : List (String × JsValue)) :
    Option (String × List JsValue) :=
  (buildDeleteMatching criteria).toOption

/-- An error produced by the external execution collaborator (the `err`
passed to the `callDb` callback); `code` models the `err.code` property,
which may be absent. -/
structure DbErr where
  code : JsValue := .jsUndefined
  message : String := ""
deriving DecidableEq, Repr

/-- A value an operation's promise is rejected with: either the error
object itself or only its `code` property. -/
inductive RejectValue where
  | errObj (e : DbErr)
  | codeVal (c : JsValue)
deriving DecidableEq, Repr

/-- Severity channels of the logger port (dbentity.js lines 63-69). -/
inductive LogLevel where
  | error
  | warn
  | info
  | debug
  | trace
deriving DecidableEq, Repr

/-- Catch handler of `get` (dbentity.js lines 162-165): log at error
severity, reject with the error unchanged. -/
def get_onDbError (e : DbErr) : LogLevel × RejectValue := (.error, .errObj e)

/-- Catch handler of `all` (dbentity.js lines 201-204). -/
def all_onDbError (e : DbErr) : LogLevel × RejectValue := (.error, .errObj e)

/-- Catch handler of `find` (dbentity.js lines 258-261). -/
def find_onDbError (e : DbErr) : LogLevel × RejectValue := (.error, .errObj e)

/-- End-to-end handler of `one` for a collaborator failure: the failure
first passes through `find`'s catch (which logs it at error severity and
rejects with it unchanged, lines 258-261), then through `one`'s catch
(lines 288-290), which rejects with it unchanged without further
logging. -/
def one_onDbError (e : DbErr) : LogLevel × RejectValue :=
  let viaFind := find_onDbError e
  match viaFind.2 with
  | .errObj e2 => (viaFind.1, .errObj e2)
  | .codeVal c => (viaFind.1, .codeVal c)

/-- Catch handler of `selectWhere` (dbentity.js lines 337-340). -/
def selectWhere_onDbError (e : DbErr) : LogLevel × RejectValue :=
  (.error, .errObj e)

/-- Catch handler of `create` (dbentity.js lines 403-406). -/
def create_onDbError (e : DbErr) : LogLevel × RejectValue :=
  (.error, .errObj e)

/-- Catch handler of `update` (dbentity.js lines 481-484). -/
def update_onDbError (e : DbErr) : LogLevel × RejectValue :=
  (.error, .errObj e)

/-- Catch handler of `deleteOne` (dbentity.js lines 526-529). -/
def deleteOne_onDbError (e : DbErr) : LogLevel × RejectValue :=
  (.error, .errObj e)

/-- Catch handler of `delete` (dbentity.js lines 557-560). -/
def delete_onDbError (e : DbErr) : LogLevel × RejectValue :=
  (.error, .errObj e)

/-- Catch handler of `deleteMatching` (dbentity.js lines 597-600): it logs
at error severity but rejects with `err.code`, not with the error. -/
def deleteMatching_onDbError (e : DbErr) : LogLevel × RejectValue :=
  (.error, .codeVal e.code)

/-- Catch handler of `deleteWhere` (dbentity.js lines 634-637): it logs at
error severity but rejects with `err.code`, not with the error. -/
def deleteWhere_onDbError (e : DbErr) : LogLevel × RejectValue :=
  (.error, .codeVal e.code)

/-! ### Metadata caching (`fetchMetadata`), sequential model

`DbEntity.prototype.fetchMetadata` (dbentity.js lines 96-137) checks
`self.metadata`: if it is nil it issues one `SHOW COLUMNS` call, parses
and stores the result, and resolves with it; on introspection failure the
cache stays nil; if the cache is set it resolves with it without I/O.
`fetchMetadataStep` returns the new cache state together with the number
of introspection calls issued (0 or 1) and the outcome. -/

/-- One sequential run of `fetchMetadata` against cache state `st`, where
`introspect` is the outcome the collaborator would report for the
`SHOW COLUMNS` query. -/
def fetchMetadataStep (options : EntityOptions)
    (introspect : Except DbErr (List RawColumn))
    (st : Option (List Column)) :
    Option (List Column) × Nat × Except DbErr (List Column) :=
  match st with
  | some m => (some m, 0, .ok m)
  | none =>
    match introspect with
    | .ok rows =>
      let m := rows.map (parseColumn options)
      (some m, 1, .ok m)
    | .error e => (none, 1, .error e)

/-- Run `n` public operations sequentially on one handle: every public
operation begins with `fetchMetadata`, so the introspection traffic of the
sequence is the sum of the per-operation counts. -/
def runOps (options : EntityOptions)
    (introspect : Except DbErr (List RawColumn)) :
    Nat → Option (List Column) → Option (List Column) × Nat
  | 0, st => (st, 0)
  | n + 1, st =>
    let step := fetchMetadataStep options introspect st
    let rest := runOps options introspect n step.1
    (rest.1, step.2.1 + rest.2)

/-! ### Metadata caching, concurrent model

The synchronous prefix of `fetchMetadata` (the nil check and, when the
cache is nil, the issuing of the `SHOW COLUMNS` call, dbentity.js lines
99-102) runs atomically on the JS event loop; the cache is assigned only
inside the `.then` continuation (lines 103-125), another atomic segment
that runs when the response arrives.  A concurrent history over one
handle is a list of these atomic events. -/

/-- Shared state of one handle under concurrent `fetchMetadata` calls:
the metadata cache, the number of introspection responses still
outstanding, and the total number of introspection calls issued. -/
structure ConcState where
  metadata : Option (List Column) := none
  inflight : Nat := 0
  calls : Nat := 0
deriving DecidableEq, Repr

/-- A fresh handle: cache unset, no traffic (dbentity.js line 72). -/
def initConcState : ConcState := {}

/-- Atomic events of the concurrent model: a caller entering
`fetchMetadata` (its synchronous prefix), and the arrival of one
outstanding introspection response carrying the reported rows. -/
inductive FetchEv where
  | start
  | complete (rows : List RawColumn)
deriving DecidableEq, Repr

/-- Effect of one atomic event.  A `start` against an unset cache issues a
new introspection call — the source gates the call on the cache alone, so
it does not notice an in-flight one; a `complete` stores the parsed
metadata. -/
def concStep (options : EntityOptions) (s : ConcState) : FetchEv → ConcState
  | .start =>
    match s.metadata with
    | some _ => s
    | none => { s with inflight := s.inflight + 1, calls := s.calls + 1 }
  | .complete rows =>
    if s.inflight > 0 then
      { s with metadata := some (rows.map (parseColumn options))
               inflight := s.inflight - 1 }
    else s

/-- Run a history of atomic events from a given state. -/
def concRun (options : EntityOptions) : ConcState → List FetchEv → ConcState
  | s, [] => s
  | s, e :: evs => concRun options (concStep options s e) evs

/-! ### Concrete table fixtures used by the evaluated theorems -/

/-- An auto-increment integer primary key named `id`. -/
def colId : Column :=
  { column := "id", sql_type := "int(11)", pk := true, nullable := false,
    autoincrement := true }

/-- An integer column named as the default version column. -/
def colVersion : Column :=
  { column := "version", sql_type := "int(11)", pk := false, nullable := false }

/-- A datetime column named as the default updated-timestamp column. -/
def colUpdated : Column :=
  { column := "updated", sql_type := "datetime", pk := false, nullable := true }

/-- A plain varchar column. -/
def colName : Column :=
  { column := "name", sql_type := "varchar(40)", pk := false, nullable := true }

/-- Metadata, in discovery order, of a table with primary key `id`, version
column `version`, updated-timestamp column `updated`, and non-key column
`name`. -/
def widgetMeta : List Column := [colId, colVersion, colUpdated, colName]

/-- First column of a composite primary key. -/
def colA : Column :=
  { column := "a", sql_type := "int(11)", pk := true, nullable := false }

/-- Second column of a composite primary key. -/
def colB : Column :=
  { column := "b", sql_type := "int(11)", pk := true, nullable := false }

/-- A raw `SHOW COLUMNS` row describing an auto-increment primary key. -/
def rawId : RawColumn :=
  { fieldName := "id", typeName := "int(11)", keyFlag := "PRI",
    nullFlag := "NO", extraFlag := "auto_increment" }

/-- A sample engine error carrying a `code` property. -/
def sampleDbErr : DbErr :=
  { code := .str "ER_DUP_ENTRY", message := "duplicate entry" }

/-! ### Helper lemmas -/

/-- Both branches of the trailing-clause builder extend the given SQL on
the right. -/
theorem appendShape (sql x y o l : String) :
    (if (o == "") = true then
        ((sql ++ " ORDER BY ") ++ x) ++ (o ++ y) ++ l
      else (sql ++ o) ++ l) =
    sql ++
      (if (o == "") = true then " ORDER BY " ++ (x ++ ((o ++ y) ++ l))
        else o ++ l) := by
  split <;> simp only [String.append_assoc]

/-- `_appendOrderByAndLimit` only ever appends to the SQL it is given. -/
theorem appendOrderByAndLimit_isAppend (metadata : List Column) (sql : String)
    (opts : Option QueryOpts) :
    ∃ t, _appendOrderByAndLimit metadata sql opts = sql ++ t := by
  simp only [_appendOrderByAndLimit]
  exact ⟨_, appendShape sql _ _ _ _⟩

deriving instance DecidableEq for Except

/-! ### Claim theorems -/

/-- C1, counterexample: on the claimed metadata, `update({id:5, name:"X"})`
does not build the claimed
`UPDATE <table> SET version=version+1, updated=CURRENT_TIMESTAMP, name=? WHERE id=?`:
the `version` and `updated` set clauses are absent because those keys are
not present on the save object. -/
theorem c1_counterexample :
    buildUpdate "widgets" defaultOptions widgetMeta
        [("id", JsValue.num 5), ("name", JsValue.str "X")] ≠
      Except.ok
        ("UPDATE widgets SET version=version+1, updated=CURRENT_TIMESTAMP, name=? WHERE id=?",
         [JsValue.str "X", JsValue.num 5]) := by
  decide

/-- C1, amended: `update`'s set clauses follow the keys present on the save
object in its insertion order, so `update({id:5, name:"X"})` builds
`UPDATE widgets SET name=? WHERE id=?` with parameters `["X", 5]`, and the
claimed statement with `version=version+1` and `updated=CURRENT_TIMESTAMP`
is built exactly when the save object also carries `version` and `updated`
keys, as in `update({id:5, version:1, updated:7, name:"X"})`. -/
theorem c1_update_sets_follow_save_keys :
    buildUpdate "widgets" defaultOptions widgetMeta
        [("id", JsValue.num 5), ("name", JsValue.str "X")] =
      Except.ok ("UPDATE widgets SET name=? WHERE id=?",
        [JsValue.str "X", JsValue.num 5]) ∧
    buildUpdate "widgets" defaultOptions widgetMeta
        [("id", JsValue.num 5), ("version", JsValue.num 1),
         ("updated", JsValue.num 7), ("name", JsValue.str "X")] =
      Except.ok
        ("UPDATE widgets SET version=version+1, updated=CURRENT_TIMESTAMP, name=? WHERE id=?",
         [JsValue.str "X", JsValue.num 5]) := by
  constructor
  · decide
  · decide

/-- C2, code bug: with no caller-supplied orderBy, the default ORDER BY
clause is correct only for a single-column primary key.  For the
composite key `[a, b]` the code emits `ORDER BY a ASCb ASC, ` — the comma
separators are accumulated into a variable that is appended after the
loop — and for a table with no primary key it emits a dangling
`ORDER BY ` instead of omitting the clause. -/
theorem c2_default_orderby_malformed :
    _appendOrderByAndLimit [colA, colB, colName] "SELECT * FROM t " none =
      "SELECT * FROM t  ORDER BY a ASCb ASC, " ∧
    _appendOrderByAndLimit [colName] "SELECT * FROM t " none =
      "SELECT * FROM t  ORDER BY " ∧
    _appendOrderByAndLimit [colId] "SELECT * FROM t " none =
      "SELECT * FROM t  ORDER BY id ASC" := by
  refine ⟨?_, ?_, ?_⟩ <;> decide

/-- C3, code bug: the whole limit/offset block is guarded by the options
object being non-nil, so a select built with no options object at all
carries no LIMIT clause, contradicting the documented default of 1000;
when an options object is supplied the clause is appended as claimed. -/
theorem c3_limit_dropped_without_opts :
    buildAll "widgets" widgetMeta none =
      "SELECT * FROM widgets  ORDER BY id ASC" ∧
    ¬ (" LIMIT ".toList <:+: (buildAll "widgets" widgetMeta none).toList) ∧
    buildAll "widgets" widgetMeta (some {}) =
      "SELECT * FROM widgets  ORDER BY id ASC LIMIT 1000" ∧
    buildAll "widgets" widgetMeta (some { limit := some 10, offset := some 20 }) =
      "SELECT * FROM widgets  ORDER BY id ASC LIMIT 10 OFFSET 20" := by
  refine ⟨?_, ?_, ?_, ?_⟩ <;> decide

/-- C4, counterexample: `find` with an empty template raises no
`ValidationError` — the predicate-less statement is handed to the
execution collaborator. -/
theorem c4_counterexample :
    findDbCall "widgets" widgetMeta [] none =
      some ("SELECT * FROM widgets  WHERE  ORDER BY id ASC", []) := by
  decide

/-- C4, amended: no fail-fast validation exists.  `find` with an empty
template hands the predicate-less statement to the execution collaborator,
`update` with an empty save object hands the set-less statement, and
`deleteMatching` never hands over any SQL for any criteria object because
it always throws a ReferenceError on the undeclared `sql` variable. -/
theorem c4_empty_inputs_not_validated (table : String)
    (metadata : List Column) (opts : Option QueryOpts)
    (options : EntityOptions) (criteria : List (String × JsValue)) :
    (∃ tail, findDbCall table metadata [] opts =
      some ("SELECT * FROM " ++ table ++ " " ++ " WHERE " ++ tail, [])) ∧
    updateDbCall table options metadata [] =
      some ("UPDATE " ++ table ++ " SET " ++ " WHERE " ++ (pkWhere metadata []).1,
        (pkWhere metadata []).2) ∧
    deleteMatchingDbCall criteria = none := by
  refine ⟨?_, ?_, rfl⟩
  · obtain ⟨t, ht⟩ := appendOrderByAndLimit_isAppend metadata
      (("SELECT * FROM " ++ table ++ " " ++ " WHERE ") ++ "") opts
    refine ⟨t, ?_⟩
    have hw : ∀ b : String,
        whereFromTemplate b ([] : List (String × JsValue)) = ("", []) :=
      fun _ => rfl
    simp only [findDbCall, buildFind, hw]
    rw [ht, String.append_empty]
  · simp only [updateDbCall, buildUpdate, updateSets, String.append_empty,
      Except.toOption, List.nil_append]

/-- C5, counterexample: when the execution collaborator fails with a
concrete error `e`, `deleteWhere` rejects with `e.code`, not with `e`
unchanged. -/
theorem c5_counterexample :
    deleteWhere_onDbError sampleDbErr =
      (LogLevel.error, RejectValue.codeVal (JsValue.str "ER_DUP_ENTRY")) ∧
    deleteWhere_onDbError sampleDbErr ≠
      (LogLevel.error, RejectValue.errObj sampleDbErr) := by
  exact ⟨rfl, by decide⟩

/-- C5, amended: every public operation logs a collaborator failure at
error severity and rejects without local retry; all reject with the error
value unchanged except `deleteMatching` and `deleteWhere`, which reject
with the error's `code` property instead. -/
theorem c5_error_propagation (e : DbErr) :
    get_onDbError e = (LogLevel.error, RejectValue.errObj e) ∧
    all_onDbError e = (LogLevel.error, RejectValue.errObj e) ∧
    find_onDbError e = (LogLevel.error, RejectValue.errObj e) ∧
    one_onDbError e = (LogLevel.error, RejectValue.errObj e) ∧
    selectWhere_onDbError e = (LogLevel.error, RejectValue.errObj e) ∧
    create_onDbError e = (LogLevel.error, RejectValue.errObj e) ∧
    update_onDbError e = (LogLevel.error, RejectValue.errObj e) ∧
    deleteOne_onDbError e = (LogLevel.error, RejectValue.errObj e) ∧
    delete_onDbError e = (LogLevel.error, RejectValue.errObj e) ∧
    deleteMatching_onDbError e = (LogLevel.error, RejectValue.codeVal e.code) ∧
    deleteWhere_onDbError e = (LogLevel.error, RejectValue.codeVal e.code) :=
  ⟨rfl, rfl, rfl, rfl, rfl, rfl, rfl, rfl, rfl, rfl, rfl⟩

/-- C6: coercing the empty string treats datetime/timestamp and
int/num/dec-prefixed columns as absent data — `null` when nullable,
`ValidationError` otherwise — and passes the empty string through
unchanged for every other column type. -/
theorem c6_empty_string_coercion (col : Column) :
    ((col.sql_type = "datetime" ∨ col.sql_type = "timestamp" ∨
        strStartsWith col.sql_type "int" = true ∨
        strStartsWith col.sql_type "num" = true ∨
        strStartsWith col.sql_type "dec" = true) →
      _transformToSafeValue (.str "") col =
        (if col.nullable then Except.ok JsValue.null
          else Except.error (.validationError
            (col.column ++ " is not permitted to be empty.")))) ∧
    ((col.sql_type ≠ "datetime" ∧ col.sql_type ≠ "timestamp" ∧
        strStartsWith col.sql_type "int" = false ∧
        strStartsWith col.sql_type "num" = false ∧
        strStartsWith col.sql_type "dec" = false) →
      _transformToSafeValue (.str "") col = .ok (.str "")) := by
  constructor
  · intro h
    rcases h with h | h | h | h | h <;> simp [_transformToSafeValue, h]
  · rintro ⟨h1, h2, h3, h4, h5⟩
    have e1 : (col.sql_type == "datetime") = false := beq_eq_false_iff_ne.mpr h1
    have e2 : (col.sql_type == "timestamp") = false := beq_eq_false_iff_ne.mpr h2
    simp [_transformToSafeValue, e1, e2, h3, h4, h5]

/-- C6, witness: the non-nullable `int(11)` column rejects the empty
string, the nullable one maps it to `null`, and a varchar column passes
it through. -/
theorem c6_witness :
    _transformToSafeValue (.str "")
        { column := "qty", sql_type := "int(11)", pk := false, nullable := false } =
      .error (.validationError "qty is not permitted to be empty.") ∧
    _transformToSafeValue (.str "")
        { column := "qty", sql_type := "int(11)", pk := false, nullable := true } =
      .ok .null ∧
    _transformToSafeValue (.str "") colName = .ok (.str "") := by
  refine ⟨?_, ?_, ?_⟩
  · have h := (c6_empty_string_coercion
      { column := "qty", sql_type := "int(11)", pk := false, nullable := false }).1
      (Or.inr (Or.inr (Or.inl (by decide))))
    simpa using h
  · have h := (c6_empty_string_coercion
      { column := "qty", sql_type := "int(11)", pk := false, nullable := true }).1
      (Or.inr (Or.inr (Or.inl (by decide))))
    simpa using h
  · exact (c6_empty_string_coercion colName).2
      ⟨by decide, by decide, by decide, by decide, by decide⟩

/-- C7, counterexample: an unparsable value on a datetime column does not
fail — the coercion succeeds with the literal string `"Invalid date"`
(moment's format never throws). -/
theorem c7_counterexample :
    _transformToSafeValue (.str "garbage") colUpdated =
      .ok (.str "Invalid date") := by
  decide

/-- C7, amended: a present non-empty value on an exactly-datetime or
exactly-timestamp column is reformatted through the moment model (so
"2024-01-02T10:00:00Z" yields "2024-01-02 10:00:00" under a UTC
environment), an unparsable value yields the literal string
"Invalid date" instead of failing, and every other column type passes
the value through unchanged. -/
theorem c7_datetime_format_behavior :
    (∀ (v : JsValue) (col : Column), v.isNil = false → v ≠ .str "" →
        (col.sql_type = "datetime" ∨ col.sql_type = "timestamp") →
        _transformToSafeValue v col = .ok (.str (momentFormat v))) ∧
    (∀ (v : JsValue) (col : Column), v.isNil = false → v ≠ .str "" →
        col.sql_type ≠ "datetime" → col.sql_type ≠ "timestamp" →
        _transformToSafeValue v col = .ok v) ∧
    momentFormat (.str "2024-01-02T10:00:00Z") = "2024-01-02 10:00:00" ∧
    momentFormat (.str "garbage") = "Invalid date" := by
  refine ⟨?_, ?_, by decide, by decide⟩
  · intro v col hnil hne hty
    have hbeq : (v == JsValue.str "") = false := beq_eq_false_iff_ne.mpr hne
    rcases hty with h | h <;> simp [_transformToSafeValue, hbeq, hnil, h]
  · intro v col hnil hne h1 h2
    have hbeq : (v == JsValue.str "") = false := beq_eq_false_iff_ne.mpr hne
    have e1 : (col.sql_type == "datetime") = false := beq_eq_false_iff_ne.mpr h1
    have e2 : (col.sql_type == "timestamp") = false := beq_eq_false_iff_ne.mpr h2
    simp [_transformToSafeValue, hbeq, hnil, e1, e2]

/-- C7, witness: the datetime reformat at the claimed example and the
pass-through for a varchar column. -/
theorem c7_witness :
    _transformToSafeValue (.str "2024-01-02T10:00:00Z") colUpdated =
      .ok (.str "2024-01-02 10:00:00") ∧
    _transformToSafeValue (.str "active") colName = .ok (.str "active") := by
  constructor
  · have h := c7_datetime_format_behavior.1 (.str "2024-01-02T10:00:00Z")
      colUpdated (by decide) (by decide) (Or.inl (by decide))
    rw [h]
    decide
  · exact c7_datetime_format_behavior.2.1 (.str "active") colName
      (by decide) (by decide) (by decide) (by decide)

/-- Once the metadata cache is populated, any further sequence of
operations issues no introspection traffic and keeps the cache. -/
theorem runOps_cached (options : EntityOptions)
    (introspect : Except DbErr (List RawColumn)) :
    ∀ (k : Nat) (m : List Column),
      runOps options introspect k (some m) = (some m, 0) := by
  intro k
  induction k with
  | zero => intro m; rfl
  | succ k ih => intro m; simp [runOps, fetchMetadataStep, ih]

/-- C8: on one handle used sequentially with a succeeding introspection
collaborator, any sequence of at least one public operation issues exactly
one schema-introspection call, and leaves the parsed metadata cached. -/
theorem c8_introspection_once (options : EntityOptions)
    (rows : List RawColumn) (n : Nat) (h : 1 ≤ n) :
    runOps options (.ok rows) n none =
      (some (rows.map (parseColumn options)), 1) := by
  obtain ⟨k, rfl⟩ : ∃ k, n = k + 1 := ⟨n - 1, by omega⟩
  simp [runOps, fetchMetadataStep, runOps_cached]

/-- C8, witness: two operations on a fresh handle introspect exactly
once. -/
theorem c8_witness :
    1 ≤ 2 ∧
    runOps defaultOptions (.ok [rawId]) 2 none =
      (some ([rawId].map (parseColumn defaultOptions)), 1) :=
  ⟨by decide, c8_introspection_once defaultOptions [rawId] 2 (by decide)⟩

/-- C9: `selectWhere` embeds the caller's where-clause verbatim after
` WHERE ` and always hands the empty parameter list to the execution
collaborator — the `parms` argument is never bound into the query. -/
theorem c9_selectWhere_never_binds_parms (table : String)
    (metadata : List Column) (whereClause : String) (parms : List JsValue)
    (opts : Option QueryOpts) :
    ∃ tail,
      selectWhereDbCall table metadata whereClause parms opts =
        ("SELECT * FROM " ++ table ++ " " ++ " WHERE " ++ whereClause ++ tail,
         ([] : List JsValue)) := by
  obtain ⟨t, ht⟩ := appendOrderByAndLimit_isAppend metadata
    ("SELECT * FROM " ++ table ++ " " ++ " WHERE " ++ whereClause) opts
  exact ⟨t, by simp only [selectWhereDbCall]; rw [ht]⟩

/-- Starting `k` concurrent callers against a handle whose cache is unset
issues `k` introspection calls: the source gates the call on the cache
alone, which is only assigned when a response arrives. -/
theorem concRun_starts (options : EntityOptions) :
    ∀ (k : Nat) (s : ConcState), s.metadata = none →
      concRun options s (List.replicate k FetchEv.start) =
        { s with inflight := s.inflight + k, calls := s.calls + k } := by
  intro k
  induction k with
  | zero => intro s _; simp [concRun]
  | succ k ih =>
    intro s hs
    rw [List.replicate_succ]
    have hstep : concStep options s .start =
        { s with inflight := s.inflight + 1, calls := s.calls + 1 } := by
      simp [concStep, hs]
    have : concRun options s (FetchEv.start :: List.replicate k FetchEv.start) =
        concRun options (concStep options s .start)
          (List.replicate k FetchEv.start) := rfl
    rw [this, hstep, ih _ (by simp [hs])]
    cases s
    simp
    omega

/-- C10, counterexample: in the history where two callers both enter
`fetchMetadata` before the first introspection response arrives, two
introspection calls are issued, not one. -/
theorem c10_counterexample :
    (concRun defaultOptions initConcState
        [FetchEv.start, FetchEv.start,
         FetchEv.complete [rawId], FetchEv.complete [rawId]]).calls = 2 := by
  decide

/-- C10, amended: concurrent callers do not coalesce — each caller that
enters `fetchMetadata` before the first load completes issues its own
introspection call (`k` first callers issue `k` calls), while a caller
entering after the cache is populated issues none and leaves the state
unchanged. -/
theorem c10_no_inflight_coalescing (options : EntityOptions) (k : Nat) :
    (concRun options initConcState (List.replicate k FetchEv.start)).calls = k ∧
    (∀ (s : ConcState) (m : List Column), s.metadata = some m →
      concStep options s .start = s) := by
  constructor
  · rw [concRun_starts options k initConcState rfl]
    simp [initConcState]
  · intro s m hs
    simp [concStep, hs]

/-- C10, witness: two concurrent first callers issue two calls, and a
start against a populated cache is a no-op. -/
theorem c10_witness :
    (concRun defaultOptions initConcState
      (List.replicate 2 FetchEv.start)).calls = 2 ∧
    concStep defaultOptions
        { metadata := some [], inflight := 0, calls := 1 } FetchEv.start =
      { metadata := some [], inflight := 0, calls := 1 } :=
  ⟨(c10_no_inflight_coalescing defaultOptions 2).1,
   (c10_no_inflight_coalescing defaultOptions 2).2 _ [] rfl⟩

end Mysqlutils
